import Mathlib

/-!
Verification development for the canopy-webapp analytics pipeline.

The pipeline has three stages: a contract validator (`validator.py`), a
stand aggregator (`stand_aggregator.py`) and a financial/report engine
(`owner_report_build_v3plus.py`), orchestrated by `app.py`.  Each relevant
function is shallowly embedded below: pandas missing values (NaN) become
`Option`, Python floats become `ℚ` where the computation is exact rational
arithmetic and `ℝ` where it involves `π` or square roots, raised
exceptions become `Except.error`, and process exit codes become explicit
fields.
-/

namespace Validator

/-- One tree-level row as seen by `validator.validate`; each checked field
may be missing (pandas NaN). -/
structure TreeRow where
  standAcres : Option ℚ
  dbh : Option ℚ
  topDIB : Option ℚ
  defect : Option ℚ
  cruiseType : Option String
deriving DecidableEq

/-- A tree-level table: the columns present in the frame, and its rows. -/
structure TreeTable where
  cols : List String
  rows : List TreeRow
deriving DecidableEq

/-- A row with every checked field missing. -/
def blankRow : TreeRow := ⟨none, none, none, none, none⟩

/-- pandas `astype(str)` renders a missing value (NaN) as the string
"nan"; an actual string is unchanged. -/
def pandasStr : Option String → String
  | some s => s
  | none => "nan"

/-- Required-column errors of `validator.validate`: one fatal error per
required column absent from the frame. -/
def requiredErrors (required : List String) (cols : List String) : List String :=
  (required.filter (fun c => !(cols.contains c))).map
    (fun c => "Missing required column: " ++ c)

/-- Condition of the `StandAcres must be > 0` fatal error: the column is
present and some non-missing value is ≤ 0 (`df["StandAcres"].dropna() <= 0`). -/
def standAcresBad (t : TreeTable) : Bool :=
  t.cols.contains "StandAcres" && t.rows.any (fun r =>
    match r.standAcres with
    | some a => decide (a ≤ 0)
    | none => false)

/-- Condition of the DBH range warning: column present and some
non-missing DBH outside [1, 60]. -/
def dbhBad (t : TreeTable) : Bool :=
  t.cols.contains "DBH" && t.rows.any (fun r =>
    match r.dbh with
    | some d => decide (d < 1) || decide (d > 60)
    | none => false)

/-- Condition of the TopDIB consistency warning: both columns present and
some row has both values non-missing with TopDIB > DBH. -/
def topDIBBad (t : TreeTable) : Bool :=
  t.cols.contains "TopDIB" && t.cols.contains "DBH" && t.rows.any (fun r =>
    match r.topDIB, r.dbh with
    | some ti, some d => decide (d < ti)
    | _, _ => false)

/-- Condition of the Defect range warning: column present and some
non-missing Defect outside [0, 100]. -/
def defectBad (t : TreeTable) : Bool :=
  t.cols.contains "Defect" && t.rows.any (fun r =>
    match r.defect with
    | some x => decide (x < 0) || decide (x > 100)
    | none => false)

/-- Condition of the CruiseType warning.  The source does NOT drop missing
values here: it stringifies the whole column (`astype(str)`), so a missing
CruiseType becomes the string "nan", which is not in {Plot, Point}. -/
def cruiseTypeBad (t : TreeTable) : Bool :=
  t.cols.contains "CruiseType" && t.rows.any (fun r =>
    !(["Plot", "Point"].contains (pandasStr r.cruiseType)))

/-- `validator.validate`: returns the ordered fatal-error list and the
ordered warning list, appended in source order. -/
def validate (t : TreeTable) (required : List String) : List String × List String :=
  (requiredErrors required t.cols ++
     (if standAcresBad t then ["StandAcres must be > 0"] else []),
   (if dbhBad t then ["Some DBH values are outside 1–60 inches"] else []) ++
     (if topDIBBad t then ["Some TopDIB > DBH rows found"] else []) ++
     (if defectBad t then ["Some Defect values outside 0–100%"] else []) ++
     (if cruiseTypeBad t then
        ["CruiseType contains values other than \x27Plot\x27 or \x27Point\x27"] else []))

/-- The JSON import report written by `validator.main`. -/
structure Report where
  rows : ℕ
  errors : List String
  warnings : List String
deriving DecidableEq

/-- Outcome of one run of `validator.main` on a loadable input: the report
it writes, and its process exit code. -/
structure ValidatorOutcome where
  report : Report
  exitCode : ℕ
deriving DecidableEq

/-- `validator.main` on a loadable table: computes errors and warnings,
writes them into the report, and finishes normally.  The source has no
`sys.exit` after argument parsing, so the exit code is 0 even when the
fatal-error list is non-empty. -/
def validatorMain (t : TreeTable) (required : List String) : ValidatorOutcome :=
  let ew := validate t required
  { report := { rows := t.rows.length, errors := ew.1, warnings := ew.2 },
    exitCode := 0 }

/-- Stage gating in `app.run_pipeline`: the aggregation stage runs exactly
when the validator subprocess returned exit code 0. -/
def runReachesAggregation (v : ValidatorOutcome) : Bool :=
  v.exitCode == 0

/-- A concrete input table lacking the required `StandID` column. -/
def missingStandIDTable : TreeTable := { cols := ["Tree"], rows := [blankRow] }

end Validator

/-- Claim C1: on a table with a fatal validation error (here a missing
required column) the validator records the error in its report, yet exits
with code 0, so `app.run_pipeline` proceeds to the aggregation stage — the
run is NOT halted before aggregation.  Warnings (and errors) are preserved
verbatim in the report surfaced to the invoker. -/
theorem C1_fatal_error_reaches_aggregation :
    (Validator.validatorMain Validator.missingStandIDTable ["StandID"]).report.errors =
      ["Missing required column: StandID"] ∧
    (Validator.validatorMain Validator.missingStandIDTable ["StandID"]).exitCode = 0 ∧
    Validator.runReachesAggregation
      (Validator.validatorMain Validator.missingStandIDTable ["StandID"]) = true ∧
    (∀ (t : Validator.TreeTable) (req : List String),
      (Validator.validatorMain t req).report.warnings = (Validator.validate t req).2 ∧
      (Validator.validatorMain t req).report.errors = (Validator.validate t req).1) := by
  refine ⟨by decide, rfl, rfl, ?_⟩
  intro t req
  exact ⟨rfl, rfl⟩

/-- Claim C10, counterexample: a table whose single row has a missing
CruiseType value (and nothing else) produces the CruiseType warning all by
itself, so missing domain values are not universally ignored. -/
theorem C10_missing_cruisetype_counterexample :
    (Validator.validate ⟨["CruiseType"], [Validator.blankRow]⟩ []).2 =
      ["CruiseType contains values other than \x27Plot\x27 or \x27Point\x27"] ∧
    (Validator.validate ⟨["CruiseType"], [Validator.blankRow]⟩ []).1 = [] := by
  decide

/-- Claim C10, amended: a fully-missing row is invisible to the StandAcres,
DBH, TopDIB and Defect checks (their conditions and the fatal-error list
are unchanged by prepending it), but the CruiseType check stringifies the
missing value to "nan", so in the presence of the CruiseType column a
fully-missing row forces that warning condition. -/
theorem C10_missing_values_amended :
    ∀ (cols : List String) (rows : List Validator.TreeRow) (req : List String),
      Validator.standAcresBad ⟨cols, Validator.blankRow :: rows⟩ =
        Validator.standAcresBad ⟨cols, rows⟩ ∧
      Validator.dbhBad ⟨cols, Validator.blankRow :: rows⟩ =
        Validator.dbhBad ⟨cols, rows⟩ ∧
      Validator.topDIBBad ⟨cols, Validator.blankRow :: rows⟩ =
        Validator.topDIBBad ⟨cols, rows⟩ ∧
      Validator.defectBad ⟨cols, Validator.blankRow :: rows⟩ =
        Validator.defectBad ⟨cols, rows⟩ ∧
      Validator.cruiseTypeBad ⟨cols, Validator.blankRow :: rows⟩ =
        cols.contains "CruiseType" ∧
      (Validator.validate ⟨cols, Validator.blankRow :: rows⟩ req).1 =
        (Validator.validate ⟨cols, rows⟩ req).1 := by
  intro cols rows req
  have hs : Validator.standAcresBad ⟨cols, Validator.blankRow :: rows⟩ =
      Validator.standAcresBad ⟨cols, rows⟩ := by
    simp [Validator.standAcresBad, Validator.blankRow]
  refine ⟨hs, ?_, ?_, ?_, ?_, ?_⟩
  · simp [Validator.dbhBad, Validator.blankRow]
  · simp [Validator.topDIBBad, Validator.blankRow]
  · simp [Validator.defectBad, Validator.blankRow]
  · simp [Validator.cruiseTypeBad, Validator.blankRow, Validator.pandasStr]
  · simp [Validator.validate, hs]

/-- A calibration factor set (`CalibrationFactorSet` document): a JSON
object mapping group keys to objects mapping factor names to numbers,
embedded as nested association lists. -/
abbrev Factors := List (String × List (String × ℚ))

namespace StandAggregator

/-- `stand_aggregator.load_calibration`: an absent/empty path yields the
empty factor set; otherwise the document is parsed with no exception
handler, so an unreadable or malformed document (`doc = none`) raises —
embedded as an `Except.error`. -/
def load_calibration (path : Option String) (doc : Option Factors) : Except String Factors :=
  match path with
  | none => .ok []
  | some _ =>
    match doc with
    | some d => .ok d
    | none => .error "calibration document unreadable or malformed"

/-- `stand_aggregator.get_factor`: exact group key and factor name if both
present, else the "ALL" group if it holds the name, else 1.0. -/
def get_factor (factors : Factors) (group name : String) : ℚ :=
  match (factors.lookup group).bind (fun gf => gf.lookup name) with
  | some v => v
  | none =>
    match (factors.lookup "ALL").bind (fun gf => gf.lookup name) with
    | some v => v
    | none => 1

/-- Cruise configuration: the positional `size_value` is a plot size in
acres for Plot cruises and a basal area factor for Point cruises. -/
inductive Cruise
  | plot (plot_size_ac : ℚ)
  | point (baf : ℚ)

/-- One output row of `stand_aggregator.aggregate` for one stand group. -/
structure StandOut where
  trees_observed : ℕ
  tpa_live : ℝ
  ba_sqft_ac : ℝ
  qmd_in : Option ℝ

/-- Pre-calibration basal area per acre of one stand group:
Plot: `(np.pi*(dbh_in**2)/144.0).sum() * (1.0/plot_size_ac)`;
Point: `baf * n_trees`. -/
noncomputable def standBAraw (c : Cruise) (dbhs : List ℝ) : ℝ :=
  match c with
  | .plot p => ((dbhs.map (fun d => Real.pi * d ^ 2 / 144)).sum) * (1 / (p : ℝ))
  | .point b => (b : ℝ) * dbhs.length

/-- Pre-calibration trees per acre of one stand group:
Plot: `n_trees * (1.0/plot_size_ac)`;
Point: `(baf / (0.005454*dbh_in**2)).sum()`. -/
noncomputable def standTPAraw (c : Cruise) (dbhs : List ℝ) : ℝ :=
  match c with
  | .plot p => (dbhs.length : ℝ) * (1 / (p : ℝ))
  | .point b => ((dbhs.map (fun d => (b : ℝ) / (0.005454 * d ^ 2))).sum)

/-- Per-stand body of `stand_aggregator.aggregate`: qmd is computed from
the pre-calibration basal area and the observed tree count (NaN — here
`none` — for an empty group), and only then are the three calibration
factors applied multiplicatively and independently. -/
noncomputable def standOutOf (c : Cruise) (factors : Factors) (grpKey : String)
    (dbhs : List ℝ) : StandOut :=
  let ba0 := standBAraw c dbhs
  let tpa0 := standTPAraw c dbhs
  let qmd0 : Option ℝ :=
    if 0 < dbhs.length then
      some (Real.sqrt (ba0 * 144 / (0.005454 * (dbhs.length : ℝ))))
    else none
  { trees_observed := dbhs.length
    tpa_live := tpa0 * ((get_factor factors grpKey "tpa_factor" : ℚ) : ℝ)
    ba_sqft_ac := ba0 * ((get_factor factors grpKey "ba_factor" : ℚ) : ℝ)
    qmd_in := qmd0.map (fun q => q * ((get_factor factors grpKey "qmd_factor" : ℚ) : ℝ)) }

/-- Per-stand aggregation with the source's falsy-size guards: a zero
(falsy) plot size or BAF raises a `ValueError`. -/
noncomputable def aggregateStand (c : Cruise) (factors : Factors) (grpKey : String)
    (dbhs : List ℝ) : Except String StandOut :=
  match c with
  | .plot p =>
    if p = 0 then .error "Need plot_size_ac for Plot cruises"
    else .ok (standOutOf (.plot p) factors grpKey dbhs)
  | .point b =>
    if b = 0 then .error "Need BAF for Point cruises"
    else .ok (standOutOf (.point b) factors grpKey dbhs)

end StandAggregator

/-- Claim C7: calibration-factor resolution returns the exact group's
value when both group key and factor name are present, otherwise the
"ALL" group's value for that name when present, otherwise 1.0; with
factors = {"LP": {"ba_factor": 1.1}}, lookup("SP", "ba_factor") = 1.0 and
lookup("LP", "ba_factor") = 1.1. -/
theorem C7_get_factor_resolution :
    (∀ (factors : Factors) (group name : String) (gf : List (String × ℚ)) (v : ℚ),
        factors.lookup group = some gf → gf.lookup name = some v →
        StandAggregator.get_factor factors group name = v) ∧
    (∀ (factors : Factors) (group name : String) (gf : List (String × ℚ)) (v : ℚ),
        (factors.lookup group).bind (fun g => g.lookup name) = none →
        factors.lookup "ALL" = some gf → gf.lookup name = some v →
        StandAggregator.get_factor factors group name = v) ∧
    (∀ (factors : Factors) (group name : String),
        (factors.lookup group).bind (fun g => g.lookup name) = none →
        (factors.lookup "ALL").bind (fun g => g.lookup name) = none →
        StandAggregator.get_factor factors group name = 1) ∧
    StandAggregator.get_factor [("LP", [("ba_factor", 11/10)])] "SP" "ba_factor" = 1 ∧
    StandAggregator.get_factor [("LP", [("ba_factor", 11/10)])] "LP" "ba_factor" = 11/10 := by
  refine ⟨?_, ?_, ?_, rfl, rfl⟩
  · intro factors group name gf v h1 h2
    simp [StandAggregator.get_factor, h1, h2]
  · intro factors group name gf v h0 h1 h2
    simp [StandAggregator.get_factor, h0, h1, h2]
  · intro factors group name h0 h1
    simp [StandAggregator.get_factor, h0, h1]

/-- Claim C7, witness: the resolution theorem applied at the concrete
factor set of the claim. -/
theorem C7_get_factor_resolution_witness :
    StandAggregator.get_factor [("LP", [("ba_factor", 11/10)])] "LP" "ba_factor" = 11/10 :=
  C7_get_factor_resolution.1 [("LP", [("ba_factor", 11/10)])] "LP" "ba_factor"
    [("ba_factor", 11/10)] (11/10) rfl rfl

namespace OwnerReport

/-- Harvest event types generated by the auto-schedule mode. -/
inductive EventType
  | first_thin
  | second_thin
  | final
deriving DecidableEq

/-- `owner_report_build_v3plus.load_calibration`: unlike the aggregator's
version this one wraps the parse in try/except, so an absent path, an
unreadable file or a malformed document all degrade to the empty factor
set. -/
def load_calibration (path : Option String) (doc : Option Factors) : Factors :=
  match path with
  | none => []
  | some _ => doc.getD []

/-- `owner_report_build_v3plus.get_factor`, textually identical to
`stand_aggregator.get_factor`: exact group key, then "ALL", then 1.0. -/
def get_factor (factors : Factors) (group name : String) : ℚ :=
  match (factors.lookup group).bind (fun gf => gf.lookup name) with
  | some v => v
  | none =>
    match (factors.lookup "ALL").bind (fun gf => gf.lookup name) with
    | some v => v
    | none => 1

/-- Python 3 `round` on an exact rational: round half to even. -/
def pyRound (q : ℚ) : ℤ :=
  let f := ⌊q⌋
  let frac := q - f
  if frac < 1/2 then f
  else if 1/2 < frac then f + 1
  else if f % 2 = 0 then f else f + 1

/-- `auto_event_years`: three event years from the stand age (the source's
default target ages are 15, 21 and 30).  A missing age yields fixed
offsets +2, +8, +15 from the current year. -/
def auto_event_years (todayYear : ℤ) (age : Option ℚ)
    (thin1_age thin2_age final_age : ℚ) : ℤ × ℤ × ℤ :=
  match age with
  | none => (todayYear + 2, todayYear + 8, todayYear + 15)
  | some a =>
    (max todayYear (todayYear + pyRound (thin1_age - a)),
     max (max todayYear (todayYear + pyRound (thin1_age - a)) + 1)
       (todayYear + pyRound (thin2_age - a)),
     max (max (max todayYear (todayYear + pyRound (thin1_age - a)) + 1)
         (todayYear + pyRound (thin2_age - a)) + 1)
       (todayYear + pyRound (final_age - a)))

/-- Product split fractions per QMD band. -/
structure Split where
  pulp : ℚ
  cns : ℚ
  saw : ℚ
  export_frac : ℚ
deriving DecidableEq

/-- `product_split_from_qmd`: four QMD bands; a missing QMD is treated as
7.0 (the `export` key of the source dict is rendered `export_frac`
because `export` is reserved in Lean). -/
def product_split_from_qmd (qmd : Option ℚ) : Split :=
  let q := qmd.getD 7
  if q < 6 then ⟨9/10, 1/10, 0, 0⟩
  else if q < 8 then ⟨5/10, 4/10, 1/10, 0⟩
  else if q < 10 then ⟨3/10, 4/10, 3/10, 0⟩
  else ⟨2/10, 3/10, 4/10, 1/10⟩

/-- `estimate_tons`: zero when basal area or acres is missing or acres is
not positive; thinning events floor the signed product at zero; the final
event clamps tons/acre between the bounds (source defaults 60 and 150)
with no separate guard on non-positive basal area. -/
def estimate_tons (ba acres : Option ℚ) (event_type : EventType)
    (removal_pct yield_per_ba lo hi : ℚ) : ℚ :=
  match ba, acres with
  | some b, some a =>
    if a ≤ 0 then 0
    else
      match event_type with
      | .first_thin => max (b * removal_pct * yield_per_ba * a) 0
      | .second_thin => max (b * removal_pct * yield_per_ba * a) 0
      | .final => (max lo (min hi (b * (12/10)))) * a
  | _, _ => 0

/-- Per-product tons of one event. -/
structure Products where
  pulp_t : ℚ
  cns_t : ℚ
  saw_t : ℚ
  export_t : ℚ
deriving DecidableEq

/-- `allocate_products`: split one event's total tons across the four
products by the split fractions. -/
def allocate_products (total_tons : ℚ) (split : Split) : Products :=
  ⟨total_tons * split.pulp, total_tons * split.cns,
   total_tons * split.saw, total_tons * split.export_frac⟩

/-- The per-group product scaling applied after allocation in the
auto-schedule branch: each product independently times its resolved
factor. -/
def scaleProducts (cal : Factors) (group : String) (p : Products) : Products :=
  ⟨p.pulp_t * get_factor cal group "pulp_factor",
   p.cns_t * get_factor cal group "cns_factor",
   p.saw_t * get_factor cal group "saw_factor",
   p.export_t * get_factor cal group "export_factor"⟩

/-- One row of the stand-summary CSV as read by the report builder.
Numeric cells may be missing; `calibration_group` is the string the
aggregator wrote.  The `age` field models an optional extra `age` column
(the aggregator itself never writes one, so in the assembled pipeline it
is always `none`). -/
structure StandSummary where
  stand_id : String
  acres : Option ℚ
  trees_observed : Option ℚ
  tpa_live : Option ℚ
  ba_sqft_ac : Option ℚ
  qmd_in : Option ℚ
  calibration_group : String
  age : Option ℚ
deriving DecidableEq

/-- The column schema of the stand-summary table written by
`stand_aggregator.aggregate`. -/
def summaryColumns : List String :=
  ["stand_id", "acres", "trees_observed", "tpa_live", "ba_sqft_ac", "qmd_in",
   "calibration_group"]

/-- Group resolution of the auto-schedule branch:
`r.get(species_col, "ALL") if (species_col and species_col in r.index) else "ALL"`.
On the aggregator's schema the only string-valued columns are `stand_id`
and `calibration_group`.  A numeric cell used as a group key can never
equal a JSON factor-set key, so `get_factor` treats it exactly like an
unknown group — i.e. like "ALL" — and we render numeric columns (and
absent columns) as "ALL" directly. -/
def autoGroup (species_col : Option String) (r : StandSummary) : String :=
  match species_col with
  | none => "ALL"
  | some sc =>
    if sc = "stand_id" then r.stand_id
    else if sc = "calibration_group" then r.calibration_group
    else "ALL"

/-- One generated harvest-event row before tract-level aggregation. -/
structure AutoEventRow where
  stand_id : String
  event : EventType
  year : ℤ
  group : String
  prods : Products
deriving DecidableEq

/-- Removal fraction passed to `estimate_tons` for each event type (the
final event keeps the unused source default 0.28). -/
def eventRemoval : EventType → ℚ
  | .first_thin => 28/100
  | .second_thin => 33/100
  | .final => 28/100

/-- The auto-schedule branch of `build_report_v3plus` for one
stand-summary row: three events at the auto years, tons estimated from
the row's basal area and acres, allocated by the QMD split, then scaled
per product at the resolved group. -/
def autoEventsForStand (todayYear : ℤ) (cal : Factors) (species_col : Option String)
    (r : StandSummary) : List AutoEventRow :=
  let y := auto_event_years todayYear r.age 15 21 30
  let split := product_split_from_qmd r.qmd_in
  let group := autoGroup species_col r
  let t1 := estimate_tons r.ba_sqft_ac r.acres .first_thin (28/100) (12/100) 60 150
  let t2 := estimate_tons r.ba_sqft_ac r.acres .second_thin (33/100) (12/100) 60 150
  let tf := estimate_tons r.ba_sqft_ac r.acres .final (28/100) (12/100) 60 150
  [⟨r.stand_id, .first_thin, y.1, group, scaleProducts cal group (allocate_products t1 split)⟩,
   ⟨r.stand_id, .second_thin, y.2.1, group, scaleProducts cal group (allocate_products t2 split)⟩,
   ⟨r.stand_id, .final, y.2.2, group, scaleProducts cal group (allocate_products tf split)⟩]

/-- Modelled from the claim wording for comparison: product allocation and
scaling with the group taken from the row's `calibration_group` column, as
the specification describes it. -/
def specAutoEventProducts (cal : Factors) (r : StandSummary) (tons : ℚ) : Products :=
  scaleProducts cal r.calibration_group
    (allocate_products tons (product_split_from_qmd r.qmd_in))

/-- The price-sheet load of `build_report_v3plus`: a bare
`json.load` with no exception handler, so an unreadable or malformed
document raises. -/
def loadPricesDoc (doc : Option (List (String × ℚ))) :
    Except String (List (String × ℚ)) :=
  match doc with
  | some d => .ok d
  | none => .error "prices document unreadable or malformed"

/-- Per-product unit prices. -/
structure Prices where
  pulp : ℚ
  cns : ℚ
  saw : ℚ
  export_price : ℚ
deriving DecidableEq

/-- Cost entries of the price sheet. -/
structure Costs where
  logging_pulp : ℚ
  logging_cns : ℚ
  logging_saw : ℚ
  logging_export : ℚ
  trucking : ℚ
  consulting_pct : ℚ
deriving DecidableEq

/-- Price extraction of `build_report_v3plus`: each key of the parsed
document defaults to 0 when absent. -/
def mkPrices (raw : List (String × ℚ)) : Prices :=
  ⟨(raw.lookup "pulp").getD 0, (raw.lookup "cns").getD 0,
   (raw.lookup "saw").getD 0, (raw.lookup "export").getD 0⟩

/-- Cost extraction of `build_report_v3plus`: each key defaults to 0. -/
def mkCosts (raw : List (String × ℚ)) : Costs :=
  ⟨(raw.lookup "logging_cost_per_ton_pulp").getD 0,
   (raw.lookup "logging_cost_per_ton_cns").getD 0,
   (raw.lookup "logging_cost_per_ton_saw").getD 0,
   (raw.lookup "logging_cost_per_ton_export").getD 0,
   (raw.lookup "trucking_rate_per_ton").getD 0,
   (raw.lookup "consulting_fee_pct").getD 0⟩

/-- One row of the events table fed to `compute_cashflows`. -/
structure EventRow where
  year : ℤ
  pulp_t : ℚ
  cns_t : ℚ
  saw_t : ℚ
  export_t : ℚ
deriving DecidableEq

/-- One cashflow entry produced by `compute_cashflows`. -/
structure CFEntry where
  year : ℤ
  gross : ℚ
  net : ℚ
  years_from_now : ℕ
deriving DecidableEq

/-- Gross revenue of one event row: tons times unit price per product. -/
def entryGross (p : Prices) (r : EventRow) : ℚ :=
  r.pulp_t * p.pulp + r.cns_t * p.cns + r.saw_t * p.saw + r.export_t * p.export_price

/-- Net revenue of one event row: gross minus per-product logging, flat
trucking on all tons, and a consulting percentage of gross. -/
def entryNet (p : Prices) (c : Costs) (r : EventRow) : ℚ :=
  let gross := entryGross p r
  let logging := r.pulp_t * c.logging_pulp + r.cns_t * c.logging_cns +
    r.saw_t * c.logging_saw + r.export_t * c.logging_export
  let trucking := (r.pulp_t + r.cns_t + r.saw_t + r.export_t) * c.trucking
  let consulting := c.consulting_pct / 100 * gross
  gross - logging - trucking - consulting

/-- The cashflow entries of `compute_cashflows`:
`years_from_now = max(0, year - today)` via `Int.toNat`. -/
def mkCashflowEntries (todayYear : ℤ) (p : Prices) (c : Costs)
    (events : List EventRow) : List CFEntry :=
  events.map (fun r =>
    { year := r.year, gross := entryGross p r, net := entryNet p c r,
      years_from_now := (r.year - todayYear).toNat })

/-- The flat annual net-cashflow series indexed 0..max(years_from_now)
built by `compute_cashflows` for the IRR call: slot `t` accumulates the
nets of all entries at horizon `t`. -/
def irrSeries (cf : List CFEntry) : List ℚ :=
  let maxH := (cf.map (fun c => c.years_from_now)).foldr max 0
  (List.range (maxH + 1)).map (fun t =>
    ((cf.filter (fun c => c.years_from_now == t)).map (fun c => c.net)).sum)

/-- A series has a sign change when it holds both a positive and a
negative entry (the specification's criterion for a valid IRR root). -/
def hasSignChange (series : List ℚ) : Bool :=
  series.any (fun x => decide (0 < x)) && series.any (fun x => decide (x < 0))

/-- The IRR step of `compute_cashflows`:
`np.irr(series) * 100.0 if hasattr(np, "irr") else float("nan")`, with any
exception also mapped to NaN.  `npIrrAvail` models `hasattr(np, "irr")`
(the routine is absent from modern numpy) and `npIrr` models the external
routine, `none` standing for its NaN result or a raised exception; the
overall `none` is the propagated NaN. -/
def computeIrr (npIrrAvail : Bool) (npIrr : List ℚ → Option ℚ)
    (series : List ℚ) : Option ℚ :=
  if npIrrAvail then (npIrr series).map (fun v => v * 100) else none

/-- `compute_cashflows`: the entry list, the NPV at the given discount
rate, and the IRR result (`none` = NaN). -/
def compute_cashflows (todayYear : ℤ) (events : List EventRow) (p : Prices)
    (c : Costs) (discount_rate : ℚ) (npIrrAvail : Bool)
    (npIrr : List ℚ → Option ℚ) : List CFEntry × ℚ × Option ℚ :=
  let cf := mkCashflowEntries todayYear p c events
  let npv := (cf.map (fun e => e.net / (1 + discount_rate) ^ e.years_from_now)).sum
  (cf, npv, computeIrr npIrrAvail npIrr (irrSeries cf))

end OwnerReport

/-- Basal area computed by the aggregator on the spec's Plot example
(plot size 0.1 acre, ten trees of 10 inches DBH): the source formula
gives 10000π/144 = 625π/9. -/
theorem plotExampleBA :
    (StandAggregator.standOutOf (.plot (1/10)) [] "ALL"
        (List.replicate 10 (10:ℝ))).ba_sqft_ac = 625 / 9 * Real.pi := by
  have h1 : ((StandAggregator.get_factor [] "ALL" "ba_factor" : ℚ) : ℝ) = 1 := by
    norm_num [StandAggregator.get_factor]
  simp [StandAggregator.standOutOf, StandAggregator.standBAraw, h1,
    List.sum_replicate]
  ring

/-- Claim C6, counterexample: on the Plot example the computed basal area
per acre is 625π/9 ≈ 218.2, which is not within 1 of the claimed 545.4. -/
theorem C6_plot_example_counterexample :
    ¬ |(StandAggregator.standOutOf (.plot (1/10)) [] "ALL"
        (List.replicate 10 (10:ℝ))).ba_sqft_ac - 2727/5| ≤ 1 := by
  rw [plotExampleBA]
  have h2 := Real.pi_lt_d6
  have h1 := Real.pi_gt_d6
  intro h
  rw [abs_le] at h
  nlinarith [h.1]

/-- Claim C6, amended: for a Plot cruise with plot_size_ac = 0.1 and ten
trees of 10 inches DBH in one stand group, the expansion factor 1/0.1
yields tpa_live = 100 and ba_sqft_ac = Σ(π·dbh²/144) × 10 = 625π/9
≈ 218.2 (the claimed 545.4 does not follow from the stated formulas). -/
theorem C6_plot_example_amended :
    StandAggregator.aggregateStand (.plot (1/10)) [] "ALL"
        (List.replicate 10 (10:ℝ)) =
      .ok (StandAggregator.standOutOf (.plot (1/10)) [] "ALL"
        (List.replicate 10 (10:ℝ))) ∧
    (StandAggregator.standOutOf (.plot (1/10)) [] "ALL"
        (List.replicate 10 (10:ℝ))).trees_observed = 10 ∧
    (StandAggregator.standOutOf (.plot (1/10)) [] "ALL"
        (List.replicate 10 (10:ℝ))).tpa_live = 100 ∧
    (StandAggregator.standOutOf (.plot (1/10)) [] "ALL"
        (List.replicate 10 (10:ℝ))).ba_sqft_ac = 625 / 9 * Real.pi ∧
    |(StandAggregator.standOutOf (.plot (1/10)) [] "ALL"
        (List.replicate 10 (10:ℝ))).ba_sqft_ac - 1091/5| < 1/10 := by
  refine ⟨?_, rfl, ?_, plotExampleBA, ?_⟩
  · have : ¬ ((1:ℚ)/10 = 0) := by norm_num
    simp [StandAggregator.aggregateStand, this]
  · have h1 : ((StandAggregator.get_factor [] "ALL" "tpa_factor" : ℚ) : ℝ) = 1 := by
      norm_num [StandAggregator.get_factor]
    simp [StandAggregator.standOutOf, StandAggregator.standTPAraw, h1]
    norm_num
  · rw [plotExampleBA]
    have h1 := Real.pi_gt_d6
    have h2 := Real.pi_lt_d6
    rw [abs_lt]
    constructor <;> nlinarith

/-- Claim C9: for any non-empty stand group under either cruise type,
when the ba and qmd calibration factors resolve to 1.0, recomputing
`sqrt(ba_sqft_ac × 144 / (0.005454 × trees_observed))` from the reported
output reproduces exactly the reported qmd_in, which the aggregator
computes before applying calibration. -/
theorem C9_qmd_roundtrip (c : StandAggregator.Cruise) (factors : Factors)
    (grp : String) (dbhs : List ℝ) (hne : dbhs ≠ [])
    (hba : StandAggregator.get_factor factors grp "ba_factor" = 1)
    (hqmd : StandAggregator.get_factor factors grp "qmd_factor" = 1) :
    (StandAggregator.standOutOf c factors grp dbhs).qmd_in =
      some (Real.sqrt
        ((StandAggregator.standOutOf c factors grp dbhs).ba_sqft_ac * 144 /
          (0.005454 *
            ((StandAggregator.standOutOf c factors grp dbhs).trees_observed : ℝ)))) := by
  have hlen : 0 < dbhs.length := List.length_pos.mpr hne
  simp [StandAggregator.standOutOf, hba, hqmd, hlen]

/-- Claim C9, witness: the round-trip theorem at a one-tree Plot group
with the empty calibration document. -/
theorem C9_qmd_roundtrip_witness :
    (StandAggregator.standOutOf (.plot 1) [] "ALL" [10]).qmd_in =
      some (Real.sqrt
        ((StandAggregator.standOutOf (.plot 1) [] "ALL" [10]).ba_sqft_ac * 144 /
          (0.005454 *
            ((StandAggregator.standOutOf (.plot 1) [] "ALL" [10]).trees_observed : ℝ)))) :=
  C9_qmd_roundtrip (.plot 1) [] "ALL" [10] (by simp) rfl rfl

/-- Claim C2, counterexample: the aggregator's calibration load and the
report engine's price-sheet load have no exception handler, so a malformed
or unreadable document (`doc = none`) fails the run instead of degrading
to an empty/zero default. -/
theorem C2_tolerant_parsing_counterexample :
    StandAggregator.load_calibration (some "calibration_factors.json") none =
      Except.error "calibration document unreadable or malformed" ∧
    OwnerReport.loadPricesDoc none =
      Except.error "prices document unreadable or malformed" := ⟨rfl, rfl⟩

/-- Claim C2, amended: the tolerant-parsing policy holds only at the
report engine's calibration load, where any malformed/unreadable document
or absent path degrades to the empty factor set (under which every factor
resolves to 1.0); the aggregator's calibration load and the report
engine's price load succeed only on a parseable document, and missing
keys of a parseable price document default to 0. -/
theorem C2_tolerant_parsing_amended :
    (∀ (p : String), OwnerReport.load_calibration (some p) none = []) ∧
    (∀ (doc : Option Factors), OwnerReport.load_calibration none doc = []) ∧
    (∀ (g n : String), OwnerReport.get_factor [] g n = 1) ∧
    (∀ (p : String) (d : Factors),
      StandAggregator.load_calibration (some p) (some d) = .ok d) ∧
    (∀ (d : List (String × ℚ)), OwnerReport.loadPricesDoc (some d) = .ok d) ∧
    OwnerReport.mkPrices [] = ⟨0, 0, 0, 0⟩ ∧
    OwnerReport.mkCosts [] = ⟨0, 0, 0, 0, 0, 0⟩ := by
  refine ⟨fun p => rfl, fun doc => rfl, fun g n => rfl, fun p d => rfl,
    fun d => rfl, rfl, rfl⟩

/-- Claim C3, counterexample: a final event with basal area 0 (present and
non-positive) and one acre yields 60 tons, not the 0 tons the claim
demands for non-positive basal area — the source only guards
`acres <= 0`, and the clamp floors tons/acre at 60. -/
theorem C3_estimate_tons_counterexample :
    OwnerReport.estimate_tons (some 0) (some 1) .final (28/100) (12/100) 60 150 = 60 ∧
    (60 : ℚ) ≠ 0 := by
  constructor
  · norm_num [OwnerReport.estimate_tons]
  · norm_num

/-- Claim C3, amended: tons are 0 when basal area or acres is missing or
acres is non-positive; for positive acres, thinning tons are
`max(ba × removal × 0.12 × acres, 0)` — equal to the claimed product for
non-negative basal area and 0 for non-positive basal area — while the
final event always yields `clamp(ba × 1.2, 60, 150) × acres`, which is
`60 × acres > 0` (not 0) for non-positive basal area. -/
theorem C3_estimate_tons_amended :
    ∀ (b a rp y lo hi : ℚ) (evt : OwnerReport.EventType),
      OwnerReport.estimate_tons none (some a) evt rp y lo hi = 0 ∧
      OwnerReport.estimate_tons (some b) none evt rp y lo hi = 0 ∧
      (a ≤ 0 → OwnerReport.estimate_tons (some b) (some a) evt rp y lo hi = 0) ∧
      (0 < a → b ≤ 0 →
        OwnerReport.estimate_tons (some b) (some a) .first_thin (28/100) (12/100) lo hi = 0 ∧
        OwnerReport.estimate_tons (some b) (some a) .second_thin (33/100) (12/100) lo hi = 0) ∧
      (0 < a → 0 ≤ b →
        OwnerReport.estimate_tons (some b) (some a) .first_thin (28/100) (12/100) lo hi =
          b * (28/100) * (12/100) * a ∧
        OwnerReport.estimate_tons (some b) (some a) .second_thin (33/100) (12/100) lo hi =
          b * (33/100) * (12/100) * a) ∧
      (0 < a →
        OwnerReport.estimate_tons (some b) (some a) .final rp y 60 150 =
          max 60 (min 150 (b * (12/10))) * a) := by
  intro b a rp y lo hi evt
  refine ⟨rfl, ?_, ?_, ?_, ?_, ?_⟩
  · cases evt <;> rfl
  · intro ha
    cases evt <;> simp [OwnerReport.estimate_tons, ha]
  · intro ha hb
    have hna : ¬ a ≤ 0 := not_le.mpr ha
    have h1 : b * (28/100) * (12/100) * a ≤ 0 := by nlinarith
    have h2 : b * (33/100) * (12/100) * a ≤ 0 := by nlinarith
    constructor
    · simp [OwnerReport.estimate_tons, hna, max_eq_right h1]
    · simp [OwnerReport.estimate_tons, hna, max_eq_right h2]
  · intro ha hb
    have hna : ¬ a ≤ 0 := not_le.mpr ha
    have h1 : 0 ≤ b * (28/100) * (12/100) * a := by nlinarith
    have h2 : 0 ≤ b * (33/100) * (12/100) * a := by nlinarith
    constructor
    · simp [OwnerReport.estimate_tons, hna, max_eq_left h1]
    · simp [OwnerReport.estimate_tons, hna, max_eq_left h2]
  · intro ha
    have hna : ¬ a ≤ 0 := not_le.mpr ha
    simp [OwnerReport.estimate_tons, hna]

/-- Claim C3, witness: the amended theorem applied at a concrete positive
thinning input and at a concrete negative-basal-area final input. -/
theorem C3_estimate_tons_amended_witness :
    OwnerReport.estimate_tons (some 100) (some 2) .first_thin (28/100) (12/100) 60 150 =
      100 * (28/100) * (12/100) * 2 ∧
    OwnerReport.estimate_tons (some (-5)) (some 2) .final (28/100) (12/100) 60 150 =
      max 60 (min 150 ((-5) * (12/10))) * 2 := by
  refine ⟨((C3_estimate_tons_amended 100 2 (28/100) (12/100) 60 150
      .first_thin).2.2.2.2.1 (by norm_num) (by norm_num)).1, ?_⟩
  exact (C3_estimate_tons_amended (-5) 2 (28/100) (12/100) 60 150
      .final).2.2.2.2.2 (by norm_num)

/-- A concrete stand-summary row as the aggregator writes it: calibration
group "LP", basal area 100, one acre, QMD 7. -/
def c4Row : OwnerReport.StandSummary :=
  { stand_id := "S1", acres := some 1, trees_observed := some 10,
    tpa_live := some 100, ba_sqft_ac := some 100, qmd_in := some 7,
    calibration_group := "LP", age := none }

/-- A calibration document that doubles pulp tons for group "LP". -/
def c4Cal : Factors := [("LP", [("pulp_factor", 2)])]

/-- Claim C4, counterexample: with the pipeline's species column name
"CalSpecies" — not a column of the stand-summary schema — the code
resolves every event's group to "ALL" and leaves pulp tons unscaled
(1.68 for the first thin), whereas scaling at the stand's
calibration_group "LP" as the claim prescribes would double them (3.36). -/
theorem C4_group_counterexample :
    ((OwnerReport.autoEventsForStand 2026 c4Cal (some "CalSpecies") c4Row).map
        (fun e => e.group)) = ["ALL", "ALL", "ALL"] ∧
    c4Row.calibration_group = "LP" ∧
    ((OwnerReport.autoEventsForStand 2026 c4Cal (some "CalSpecies") c4Row).map
        (fun e => e.prods.pulp_t)) = [42/25, 99/50, 60] ∧
    (OwnerReport.specAutoEventProducts c4Cal c4Row
        (OwnerReport.estimate_tons c4Row.ba_sqft_ac c4Row.acres .first_thin
          (28/100) (12/100) 60 150)).pulp_t = 84/25 ∧
    ((42 : ℚ)/25) ≠ 84/25 := by
  have hgrp : OwnerReport.autoGroup (some "CalSpecies")
      ({ stand_id := "S1", acres := some 1, trees_observed := some 10,
         tpa_live := some 100, ba_sqft_ac := some 100, qmd_in := some 7,
         calibration_group := "LP", age := none } : OwnerReport.StandSummary) =
      "ALL" := by
    simp [OwnerReport.autoGroup]
  have hfacAll : OwnerReport.get_factor c4Cal "ALL" "pulp_factor" = 1 := rfl
  have hfacLP : OwnerReport.get_factor c4Cal "LP" "pulp_factor" = 2 := rfl
  refine ⟨?_, rfl, ?_, ?_, by norm_num⟩
  · simp [OwnerReport.autoEventsForStand, c4Row, hgrp]
  · norm_num [OwnerReport.autoEventsForStand, hgrp, hfacAll, c4Row,
      OwnerReport.estimate_tons, OwnerReport.product_split_from_qmd,
      OwnerReport.allocate_products, OwnerReport.scaleProducts, max_def, min_def]
  · norm_num [OwnerReport.specAutoEventProducts, hfacLP, c4Row,
      OwnerReport.estimate_tons, OwnerReport.product_split_from_qmd,
      OwnerReport.allocate_products, OwnerReport.scaleProducts, max_def, min_def]

/-- Claim C4, amended: in auto-schedule mode each event's product tons are
the QMD-band allocation scaled by factors resolved at the group read from
the species column of the StandSummary row — which is "ALL" for any
species column other than a string column of the summary schema, and is
the stand's calibration_group only when the species column is literally
"calibration_group". -/
theorem C4_group_amended (todayYear : ℤ) (cal : Factors)
    (r : OwnerReport.StandSummary) (sc : String)
    (h1 : sc ≠ "stand_id") (h2 : sc ≠ "calibration_group") :
    (OwnerReport.autoEventsForStand todayYear cal (some sc) r).map
        (fun e => e.group) = ["ALL", "ALL", "ALL"] ∧
    (OwnerReport.autoEventsForStand todayYear cal (some "calibration_group") r).map
        (fun e => e.group) =
      [r.calibration_group, r.calibration_group, r.calibration_group] ∧
    (OwnerReport.autoEventsForStand todayYear cal (some sc) r).map
        (fun e => e.prods) =
      [OwnerReport.scaleProducts cal "ALL" (OwnerReport.allocate_products
         (OwnerReport.estimate_tons r.ba_sqft_ac r.acres .first_thin
           (28/100) (12/100) 60 150)
         (OwnerReport.product_split_from_qmd r.qmd_in)),
       OwnerReport.scaleProducts cal "ALL" (OwnerReport.allocate_products
         (OwnerReport.estimate_tons r.ba_sqft_ac r.acres .second_thin
           (33/100) (12/100) 60 150)
         (OwnerReport.product_split_from_qmd r.qmd_in)),
       OwnerReport.scaleProducts cal "ALL" (OwnerReport.allocate_products
         (OwnerReport.estimate_tons r.ba_sqft_ac r.acres .final
           (28/100) (12/100) 60 150)
         (OwnerReport.product_split_from_qmd r.qmd_in))] := by
  have hg : OwnerReport.autoGroup (some sc) r = "ALL" := by
    simp [OwnerReport.autoGroup, h1, h2]
  have hg2 : OwnerReport.autoGroup (some "calibration_group") r =
      r.calibration_group := by
    simp [OwnerReport.autoGroup]
  refine ⟨?_, ?_, ?_⟩ <;>
    simp [OwnerReport.autoEventsForStand, hg, hg2]

/-- Claim C4, witness: the amended theorem applied at the concrete row and
calibration document, showing that naming the calibration_group column
itself recovers the stand's group "LP". -/
theorem C4_group_amended_witness :
    (OwnerReport.autoEventsForStand 2026 c4Cal (some "calibration_group") c4Row).map
        (fun e => e.group) = ["LP", "LP", "LP"] :=
  (C4_group_amended 2026 c4Cal c4Row "CalSpecies" (by decide) (by decide)).2.1

/-- Two harvest events for the IRR counterexample: ten pulp tons now and
eleven saw tons next year. -/
def c5Events : List OwnerReport.EventRow :=
  [⟨2026, 10, 0, 0, 0⟩, ⟨2027, 0, 0, 11, 0⟩]

/-- Prices paying only for saw tons. -/
def c5Prices : OwnerReport.Prices := ⟨0, 0, 2, 0⟩

/-- Costs with a flat trucking rate of 1 per ton and nothing else. -/
def c5Costs : OwnerReport.Costs := ⟨0, 0, 0, 0, 1, 0⟩

/-- Claim C5, counterexample: the net series [-10, 11] has a sign change
(a valid root exists in the bounded domain), yet with the optional
`np.irr` routine unavailable — as in current numpy — the computation
yields NaN (`none`), not a numeric IRR. -/
theorem C5_irr_counterexample :
    OwnerReport.irrSeries
        ((OwnerReport.compute_cashflows 2026 c5Events c5Prices c5Costs (5/100)
          false (fun _ => none)).1) = [-10, 11] ∧
    OwnerReport.hasSignChange [-10, 11] = true ∧
    (OwnerReport.compute_cashflows 2026 c5Events c5Prices c5Costs (5/100)
        false (fun _ => none)).2.2 = none := by
  refine ⟨?_, by decide, rfl⟩
  norm_num [OwnerReport.compute_cashflows, OwnerReport.mkCashflowEntries,
    OwnerReport.irrSeries, OwnerReport.entryNet, OwnerReport.entryGross,
    c5Events, c5Prices, c5Costs, List.range_succ, List.filter_cons]

/-- Claim C5, amended: whenever the optional `np.irr` routine is absent
(or raises), `compute_cashflows` returns NaN (`none`) for every event
list — including series with a valid sign change — and when the routine
is available the result is simply its output times 100; no bounded
root-finder or distinguished no-solution value exists in the source. -/
theorem C5_irr_amended :
    ∀ (todayYear : ℤ) (events : List OwnerReport.EventRow)
      (p : OwnerReport.Prices) (c : OwnerReport.Costs) (dr : ℚ)
      (npIrr : List ℚ → Option ℚ),
      (OwnerReport.compute_cashflows todayYear events p c dr false npIrr).2.2 =
        none ∧
      (∀ series : List ℚ,
        OwnerReport.computeIrr true npIrr series = (npIrr series).map (fun v => v * 100)) := by
  intro todayYear events p c dr npIrr
  exact ⟨rfl, fun series => rfl⟩

/-- Claim C8: the three auto-scheduled event years strictly increase for
every age input including a missing age, and are computed by exactly the
claimed max/round formulas (Python rounds half to even). -/
theorem C8_auto_years_strict :
    ∀ (todayYear : ℤ) (age : Option ℚ),
      ((OwnerReport.auto_event_years todayYear age 15 21 30).1 <
          (OwnerReport.auto_event_years todayYear age 15 21 30).2.1 ∧
        (OwnerReport.auto_event_years todayYear age 15 21 30).2.1 <
          (OwnerReport.auto_event_years todayYear age 15 21 30).2.2) ∧
      OwnerReport.auto_event_years todayYear none 15 21 30 =
        (todayYear + 2, todayYear + 8, todayYear + 15) ∧
      (∀ a : ℚ,
        OwnerReport.auto_event_years todayYear (some a) 15 21 30 =
          (max todayYear (todayYear + OwnerReport.pyRound (15 - a)),
           max (max todayYear (todayYear + OwnerReport.pyRound (15 - a)) + 1)
             (todayYear + OwnerReport.pyRound (21 - a)),
           max (max (max todayYear (todayYear + OwnerReport.pyRound (15 - a)) + 1)
               (todayYear + OwnerReport.pyRound (21 - a)) + 1)
             (todayYear + OwnerReport.pyRound (30 - a)))) := by
  intro todayYear age
  refine ⟨?_, rfl, fun a => rfl⟩
  cases age with
  | none =>
    constructor <;> simp [OwnerReport.auto_event_years]
  | some a =>
    simp only [OwnerReport.auto_event_years]
    constructor
    · have h := le_max_left
        (max todayYear (todayYear + OwnerReport.pyRound (15 - a)) + 1)
        (todayYear + OwnerReport.pyRound (21 - a))
      omega
    · have h := le_max_left
        (max (max todayYear (todayYear + OwnerReport.pyRound (15 - a)) + 1)
          (todayYear + OwnerReport.pyRound (21 - a)) + 1)
        (todayYear + OwnerReport.pyRound (30 - a))
      omega
